import Mathlib

/-
Verification of the DDP communication-hook core declared in
torch/csrc/distributed/c10d/comm.h (GradBucket, CommHookInterface,
AllreduceHook, PythonCommHook).

Tensors are modelled as flat lists of rational elements, so that the
element-wise arithmetic of the spec (sum across workers, division by
world size) is exact.  The asynchronous Future is modelled by its
eventual outcome.  The bodies that live in comm.cpp are absent from the
sources, so they are modelled from the spec; the inline destructor of
PythonCommHook is translated from the header itself, with the pybind11
handle semantics it relies on (dec_ref is Py_XDECREF, a no-op on a null
pointer; the py object destructor decrefs a non-null pointer once).
-/

namespace c10d

/-- A tensor, modelled as the flat list of its (exact) scalar elements. -/
abbrev Tensor := List ℚ

/-- Element-wise division of a tensor by a scalar (the world size). -/
def Tensor.div (t : Tensor) (w : ℚ) : Tensor :=
  t.map (fun x => x / w)

/-- Element-wise addition of two tensors of equal shape. -/
def Tensor.add (a b : Tensor) : Tensor :=
  List.zipWith (· + ·) a b

/-- Element-wise addition of two equally-shaped tensor sequences. -/
def tensorListAdd (a b : List Tensor) : List Tensor :=
  List.zipWith Tensor.add a b

/-- The value computed by a sum all-reduce: the element-wise sum of the
per-worker tensor sequences. -/
def allreduceSum : List (List Tensor) → List Tensor
  | [] => []
  | ts :: [] => ts
  | ts :: rest => tensorListAdd ts (allreduceSum rest)

/-- The error kinds of the error-handling design. -/
inductive HookError where
  | HookStartError
  | CommunicationFailure
  | ResultShapeError
  | ForeignCallError
deriving DecidableEq

/-- The generic value carrier resolved by a Future (c10 IValue): either a
vector of tensors or some other, non-tensor payload. -/
inductive IValue where
  | tensorVector (ts : List Tensor)
  | pyObject (p : ℕ)
deriving DecidableEq

/-- A Future, modelled by its eventual outcome: resolved with a value, or
failed with an error. -/
inductive Future where
  | resolved (v : IValue)
  | failed (e : HookError)
deriving DecidableEq

/-- The resolved value of a Future, if it did not fail. -/
def Future.value : Future → Option IValue
  | .resolved v => some v
  | .failed _ => none

/-- The reduction operation of a c10d collective. -/
inductive ReduceOp where
  | sum
  | product
  | min
  | max
deriving DecidableEq

/-- A process group, reduced to what the hook layer depends on: the world
size and the Future produced by its asynchronous all-reduce collective
over a tensor sequence. -/
structure ProcessGroup where
  size : ℕ
  allreduceFut : ReduceOp → List Tensor → Future

/-- The bucket data carrier: the ordered gradient tensor sequence of one
synchronization unit (field tensors_ of class GradBucket in comm.h). -/
structure GradBucket where
  tensors_ : List Tensor
deriving DecidableEq

/-- Modelled from the spec: the body of the GradBucket constructor lives in
comm.cpp, which is absent from the sources.  Per the spec it stores the
given ordered sequence and validates nothing beyond non-emptiness. -/
def GradBucket.make (tensors : List Tensor) : Option GradBucket :=
  if tensors.isEmpty then none else some ⟨tensors⟩

/-- Modelled from the spec: the body of GradBucket::getTensors lives in
comm.cpp, absent from the sources; the header declares it as returning a
const reference to the stored vector.  It is modelled in state-passing
style: it returns the stored sequence itself together with the
(unchanged) bucket, so that absence of mutation is visible. -/
def GradBucket.getTensors (b : GradBucket) : List Tensor × GradBucket :=
  (b.tensors_, b)

/-- Modelled from the spec: the conversion step of the abstract extract
contract (CommHookInterface::processFuture).  The resolved value must be
a tensor vector whose count matches what the dispatcher expects for the
original bucket; otherwise ResultShapeError is raised. -/
def toTensorVector (expected : ℕ) (v : IValue) : Except HookError (List Tensor) :=
  match v with
  | .tensorVector ts => if ts.length = expected then .ok ts else .error .ResultShapeError
  | _ => .error .ResultShapeError

/-- Modelled from the spec: the body of AllreduceHook::runHook lives in
comm.cpp, absent from the sources.  Per the header comment and the spec
it invokes the asynchronous all-reduce of the process group (sum
reduction, the default option) on the tensors of the bucket and returns
the Future of that collective call unmodified. -/
def AllreduceHook.runHook (pg : ProcessGroup) (bucket : GradBucket) : Future :=
  pg.allreduceFut ReduceOp.sum bucket.tensors_

/-- Modelled from the spec: the body of AllreduceHook::processFuture lives
in comm.cpp, absent from the sources.  Per the spec it interprets the
resolved value as the reduced tensor sequence and divides every tensor
element-wise by the world size (a defensive divide, performed uniformly,
also when the world size is one). -/
def AllreduceHook.processFuture (pg : ProcessGroup) (expected : ℕ) (v : IValue) :
    Except HookError (List Tensor) :=
  (toTensorVector expected v).map (fun ts => ts.map (fun t => Tensor.div t (pg.size : ℚ)))

/-- An observable event on the foreign (Python) runtime: taking or
releasing the global execution lock, and a reference-count change of the
object at a given address. -/
inductive PyEvent where
  | gilAcquire
  | gilRelease
  | incRef (p : ℕ)
  | decRef (p : ℕ)
  | nullStore
deriving DecidableEq

/-- A pybind11 handle: a possibly-null pointer to a foreign object. -/
structure PyHandle where
  ptr : Option ℕ
deriving DecidableEq

/-- The events of handle.dec_ref(), which is Py_XDECREF: decrement the
reference count of a non-null pointer, do nothing on a null pointer. -/
def PyHandle.decRefEvents (h : PyHandle) : List PyEvent :=
  match h.ptr with
  | some p => [PyEvent.decRef p]
  | none => []

/-- The events of the py object destructor: it decrefs its pointer when
that pointer is non-null (Note about destructing py objects referenced in
comm.h). -/
def PyHandle.wrapperDtorEvents (h : PyHandle) : List PyEvent :=
  h.decRefEvents

/-- The state of a PythonCommHook instance: the retained state handle and
callback handle (fields state_ and hook_ in comm.h). -/
structure PythonCommHook where
  state_ : PyHandle
  hook_ : PyHandle
deriving DecidableEq

/-- Modelled from the spec: the body of the PythonCommHook constructor
lives in comm.cpp, absent from the sources.  Per the spec, registration
retains both foreign handles, incrementing each reference count once. -/
def PythonCommHook.construct (sp hp : ℕ) : List PyEvent × PythonCommHook :=
  ([PyEvent.incRef sp, PyEvent.incRef hp], ⟨⟨some sp⟩, ⟨some hp⟩⟩)

/-- The destructor body of PythonCommHook, translated from comm.h: a
scoped GIL acquire, then state_.dec_ref(), hook_.dec_ref(), then both
stored pointers are explicitly set to null; the scoped lock is released
at the end of the body. -/
def PythonCommHook.dtorBody (s : PythonCommHook) : List PyEvent × PythonCommHook :=
  (PyEvent.gilAcquire ::
     (s.state_.decRefEvents ++ s.hook_.decRefEvents ++
       [PyEvent.nullStore, PyEvent.nullStore, PyEvent.gilRelease]),
   ⟨⟨none⟩, ⟨none⟩⟩)

/-- Full destruction of a PythonCommHook: the destructor body runs first,
then the implicit destructors of the two py object members run on the
state the body left behind. -/
def PythonCommHook.destroy (s : PythonCommHook) : List PyEvent :=
  (s.dtorBody).1 ++
    ((s.dtorBody).2.state_.wrapperDtorEvents ++ (s.dtorBody).2.hook_.wrapperDtorEvents)

/-- Modelled from the spec: the body of PythonCommHook::runHook lives in
comm.cpp, absent from the sources.  Per the spec it invokes the foreign
callback with the retained state and the bucket under the foreign
execution lock; if the callback raises, the error is converted into a
failed Future at the boundary instead of escaping as a synchronous
fault. -/
def PythonCommHook.runHook (cb : PyHandle → GradBucket → Except HookError Future)
    (s : PythonCommHook) (bucket : GradBucket) : Future :=
  match cb s.state_ bucket with
  | .ok f => f
  | .error _ => Future.failed HookError.ForeignCallError

/-- The number of reference-count decrements of the object at address p in
an event trace. -/
def countDecRef (p : ℕ) (tr : List PyEvent) : ℕ :=
  tr.countP (fun e => e = PyEvent.decRef p)

/-- The number of GIL acquisitions in an event trace. -/
def gilAcquireCount (tr : List PyEvent) : ℕ :=
  tr.countP (fun e =>
    match e with
    | PyEvent.gilAcquire => true
    | _ => false)

/-- Whether every reference-count operation and every nulling store in the
trace happens while the GIL is held (lock depth positive). -/
def refOpsUnderGil (tr : List PyEvent) : Bool :=
  (tr.foldl (fun (acc : Bool × ℕ) e =>
    match e with
    | PyEvent.gilAcquire => (acc.1, acc.2 + 1)
    | PyEvent.gilRelease => (acc.1, acc.2 - 1)
    | PyEvent.incRef _ => (acc.1 && decide (0 < acc.2), acc.2)
    | PyEvent.decRef _ => (acc.1 && decide (0 < acc.2), acc.2)
    | PyEvent.nullStore => (acc.1 && decide (0 < acc.2), acc.2)) (true, 0)).1

/-- Applying one event to a reference-count environment. -/
def applyEvent (rc : ℕ → ℤ) : PyEvent → (ℕ → ℤ)
  | .incRef p => fun k => if k = p then rc k + 1 else rc k
  | .decRef p => fun k => if k = p then rc k - 1 else rc k
  | _ => rc

/-- Applying an event trace, left to right, to a reference-count
environment. -/
def applyTrace (rc : ℕ → ℤ) (tr : List PyEvent) : ℕ → ℤ :=
  tr.foldl applyEvent rc

/-- The complete teardown trace of a hook constructed from two non-null
handles: GIL acquire, one decrement per handle, the two nulling stores,
GIL release; the wrapper destructors contribute nothing because both
pointers were nulled. -/
theorem PythonCommHook.destroy_some (sp hp : ℕ) :
    PythonCommHook.destroy ⟨⟨some sp⟩, ⟨some hp⟩⟩
      = [PyEvent.gilAcquire, PyEvent.decRef sp, PyEvent.decRef hp,
         PyEvent.nullStore, PyEvent.nullStore, PyEvent.gilRelease] := rfl

/-- Claim C1: for the Default Reduction Hook with world size w, extract
(processFuture) divides every tensor of the resolved value element-wise
by w; instantiating the resolved value with the element-wise sum S of
the per-worker gradients, all-reduce therefore yields S / w
element-wise.  This holds for every resolved tensor-vector value of the
expected count passed to processFuture. -/
theorem allreduce_extract_divides_by_world_size (pg : ProcessGroup) (S : List Tensor)
    (expected : ℕ) (h : expected = S.length) :
    AllreduceHook.processFuture pg expected (IValue.tensorVector S)
      = Except.ok (S.map (fun t => t.map (fun x => x / (pg.size : ℚ)))) := by
  simp [AllreduceHook.processFuture, toTensorVector, h, Tensor.div, Except.map]

/-- Claim C1 witness: four workers, one tensor summing to 16 under
all-reduce; extract returns 16 / 4 = 4. -/
theorem allreduce_extract_divides_by_world_size_witness :
    AllreduceHook.processFuture
        ⟨4, fun _ _ => Future.failed HookError.CommunicationFailure⟩ 1
        (IValue.tensorVector [[(16 : ℚ)]])
      = Except.ok [[(4 : ℚ)]] := by
  rw [allreduce_extract_divides_by_world_size
    ⟨4, fun _ _ => Future.failed HookError.CommunicationFailure⟩ [[(16 : ℚ)]] 1 rfl]
  norm_num

/-- Claim C2: constructing and then destroying a PythonCommHook once
decrements each retained handle exactly once, never twice: the wrapper
destructors see nulled pointers and decrement nothing, and the net
reference-count change over construction followed by destruction is
zero on both handles. -/
theorem pythonCommHook_no_double_release (rc : ℕ → ℤ) (sp hp : ℕ) (h : sp ≠ hp) :
    countDecRef sp (PythonCommHook.destroy (PythonCommHook.construct sp hp).2) = 1 ∧
    countDecRef hp (PythonCommHook.destroy (PythonCommHook.construct sp hp).2) = 1 ∧
    applyTrace rc ((PythonCommHook.construct sp hp).1 ++
        PythonCommHook.destroy (PythonCommHook.construct sp hp).2) sp = rc sp ∧
    applyTrace rc ((PythonCommHook.construct sp hp).1 ++
        PythonCommHook.destroy (PythonCommHook.construct sp hp).2) hp = rc hp := by
  have h2 : hp ≠ sp := fun he => h he.symm
  refine ⟨?_, ?_, ?_, ?_⟩ <;>
    simp [PythonCommHook.destroy_some, countDecRef, List.countP_cons,
      PythonCommHook.construct, applyTrace, applyEvent, h, h2]

/-- Claim C2 witness: concrete handles 0 and 1, starting both reference
counts at 5: each is decremented exactly once during destruction and
ends where it started. -/
theorem pythonCommHook_no_double_release_witness :
    countDecRef 0 (PythonCommHook.destroy (PythonCommHook.construct 0 1).2) = 1 ∧
    countDecRef 1 (PythonCommHook.destroy (PythonCommHook.construct 0 1).2) = 1 ∧
    applyTrace (fun _ => (5 : ℤ)) ((PythonCommHook.construct 0 1).1 ++
        PythonCommHook.destroy (PythonCommHook.construct 0 1).2) 0 = 5 ∧
    applyTrace (fun _ => (5 : ℤ)) ((PythonCommHook.construct 0 1).1 ++
        PythonCommHook.destroy (PythonCommHook.construct 0 1).2) 1 = 5 :=
  pythonCommHook_no_double_release (fun _ => (5 : ℤ)) 0 1 (by decide)

/-- Claim C3: a bucket constructed from an ordered tensor sequence returns
exactly that sequence, in order, from getTensors, and the call leaves
the stored sequence untouched. -/
theorem gradBucket_getTensors_roundtrip (ts : List Tensor) (b : GradBucket)
    (h : GradBucket.make ts = some b) :
    (b.getTensors).1 = ts ∧ (b.getTensors).2 = b := by
  unfold GradBucket.make at h
  split at h
  · exact absurd h (by simp)
  · cases h
    exact ⟨rfl, rfl⟩

/-- Claim C3 witness: a concrete two-tensor bucket returns its two tensors
in construction order. -/
theorem gradBucket_getTensors_roundtrip_witness :
    ((GradBucket.mk [[(1 : ℚ)], [(2 : ℚ)]]).getTensors).1 = [[(1 : ℚ)], [(2 : ℚ)]] :=
  (gradBucket_getTensors_roundtrip [[(1 : ℚ)], [(2 : ℚ)]]
    (GradBucket.mk [[(1 : ℚ)], [(2 : ℚ)]]) (by decide)).1

/-- Claim C4: AllreduceHook runHook invokes the asynchronous all-reduce
collective of the process group, with sum reduction, over the tensor
sequence of the bucket, and returns the Future produced by that call
unmodified. -/
theorem allreduceHook_runHook_is_pg_allreduce (pg : ProcessGroup) (b : GradBucket) :
    AllreduceHook.runHook pg b = pg.allreduceFut ReduceOp.sum (b.getTensors).1 := rfl

/-- Claim C5: with world size 1, for a process group whose sum all-reduce
resolves to the element-wise sum of the single contribution, the
composition of extract after start returns the tensors of the input
bucket unchanged (the divide by 1 is performed, and is the identity). -/
theorem allreduce_worldsize_one_identity (pg : ProcessGroup) (b : GradBucket)
    (h1 : pg.size = 1)
    (h2 : ∀ ts, pg.allreduceFut ReduceOp.sum ts
        = Future.resolved (IValue.tensorVector (allreduceSum [ts]))) :
    ∃ v, (AllreduceHook.runHook pg b).value = some v ∧
      AllreduceHook.processFuture pg b.tensors_.length v = Except.ok b.tensors_ := by
  refine ⟨IValue.tensorVector b.tensors_, ?_, ?_⟩
  · simp [AllreduceHook.runHook, h2, Future.value, allreduceSum]
  · simp [AllreduceHook.processFuture, toTensorVector, h1, Tensor.div, Except.map]

/-- Claim C5 witness: a single-worker group and a one-tensor bucket; the
round trip returns the bucket tensor unchanged. -/
theorem allreduce_worldsize_one_identity_witness :
    ∃ v, (AllreduceHook.runHook
        ⟨1, fun _ ts => Future.resolved (IValue.tensorVector (allreduceSum [ts]))⟩
        ⟨[[(2 : ℚ)]]⟩).value = some v ∧
      AllreduceHook.processFuture
        ⟨1, fun _ ts => Future.resolved (IValue.tensorVector (allreduceSum [ts]))⟩
        (GradBucket.tensors_ ⟨[[(2 : ℚ)]]⟩).length v = Except.ok [[(2 : ℚ)]] :=
  allreduce_worldsize_one_identity
    ⟨1, fun _ ts => Future.resolved (IValue.tensorVector (allreduceSum [ts]))⟩
    ⟨[[(2 : ℚ)]]⟩ rfl (fun _ => rfl)

/-- Claim C6: an exception raised inside the foreign callback during
runHook is converted at the boundary into a failed Future carrying
ForeignCallError; runHook always returns a Future and never lets the
error escape synchronously. -/
theorem pythonCommHook_runHook_failed_future
    (cb : PyHandle → GradBucket → Except HookError Future) (s : PythonCommHook)
    (b : GradBucket) (e : HookError) (h : cb s.state_ b = Except.error e) :
    PythonCommHook.runHook cb s b = Future.failed HookError.ForeignCallError := by
  simp [PythonCommHook.runHook, h]

/-- Claim C6 witness: a callback that always raises yields the failed
Future on a concrete bucket. -/
theorem pythonCommHook_runHook_failed_future_witness :
    PythonCommHook.runHook (fun _ _ => Except.error HookError.CommunicationFailure)
        ⟨⟨some 0⟩, ⟨some 1⟩⟩ ⟨[[(1 : ℚ)]]⟩
      = Future.failed HookError.ForeignCallError :=
  pythonCommHook_runHook_failed_future
    (fun _ _ => Except.error HookError.CommunicationFailure)
    ⟨⟨some 0⟩, ⟨some 1⟩⟩ ⟨[[(1 : ℚ)]]⟩ HookError.CommunicationFailure rfl

/-- Claim C7: the extract conversion raises ResultShapeError exactly when
the resolved value is not a tensor vector of the count the dispatcher
expects, and whenever it returns normally the counts agree. -/
theorem processFuture_resultShapeError_iff (expected : ℕ) (v : IValue) :
    (toTensorVector expected v = Except.error HookError.ResultShapeError ↔
      ∀ ts, v = IValue.tensorVector ts → ts.length ≠ expected) ∧
    (∀ ts, toTensorVector expected v = Except.ok ts →
      v = IValue.tensorVector ts ∧ ts.length = expected) := by
  cases v with
  | tensorVector ts => by_cases h : ts.length = expected <;> simp [toTensorVector, h]
  | pyObject p => simp [toTensorVector]

/-- Claim C7 witness: a one-tensor value against an expected count of two
raises ResultShapeError. -/
theorem processFuture_resultShapeError_iff_witness :
    toTensorVector 2 (IValue.tensorVector [[(1 : ℚ)]])
      = Except.error HookError.ResultShapeError :=
  (processFuture_resultShapeError_iff 2 (IValue.tensorVector [[(1 : ℚ)]])).1.mpr
    (by intro ts h; cases h; decide)

/-- Claim C8: on the destruction path of a constructed PythonCommHook the
GIL is acquired exactly once, and every reference-count operation and
nulling store of the teardown happens while it is held. -/
theorem pythonCommHook_teardown_gil (sp hp : ℕ) :
    gilAcquireCount (PythonCommHook.destroy (PythonCommHook.construct sp hp).2) = 1 ∧
    refOpsUnderGil (PythonCommHook.destroy (PythonCommHook.construct sp hp).2) = true :=
  ⟨rfl, rfl⟩

/-- Claim C9: the GradBucket constructor rejects exactly the empty
sequence, stores any non-empty sequence unchanged, and every constructed
bucket is non-empty with the element count of its construction
sequence. -/
theorem gradBucket_make_nonempty (ts : List Tensor) :
    (ts = [] → GradBucket.make ts = none) ∧
    (ts ≠ [] → GradBucket.make ts = some ⟨ts⟩) ∧
    (∀ b, GradBucket.make ts = some b →
      b.tensors_ ≠ [] ∧ b.tensors_.length = ts.length) := by
  rcases ts with _ | ⟨t, ts⟩ <;> simp [GradBucket.make]

/-- Claim C9 witness: the empty sequence is rejected and a concrete
one-tensor sequence is accepted unchanged. -/
theorem gradBucket_make_nonempty_witness :
    GradBucket.make ([] : List Tensor) = none ∧
    GradBucket.make [[(1 : ℚ)]] = some ⟨[[(1 : ℚ)]]⟩ :=
  ⟨(gradBucket_make_nonempty []).1 rfl,
   (gradBucket_make_nonempty [[(1 : ℚ)]]).2.1 (by decide)⟩

/-- Claim C10: getTensors leaves the bucket unchanged, returns the stored
sequence itself, and a second call on the returned bucket yields the
identical sequence. -/
theorem gradBucket_getTensors_frame (b : GradBucket) :
    (b.getTensors).2 = b ∧
    (b.getTensors).1 = b.tensors_ ∧
    ((b.getTensors).2.getTensors).1 = (b.getTensors).1 :=
  ⟨rfl, rfl, rfl⟩

end c10d
